import Mathlib

/-!
Shallow embedding of the connection-broker core of the
VS_Code_Extension_for_DBs_Services repository: the connection registry
(`src/core/connectionManager.ts`), the secret boundary
(`SecretManager`), the SSH tunnel manager (`src/core/tunnelManager.ts`),
the provider session maps (`src/providers/*.ts`), and the script
splitters of the connection explorer and saved-query views.

Maps (`Map<string, _>`) are modelled as association lists with
insertion-order-preserving `set`/`delete`, mirroring JavaScript `Map`
semantics.  Asynchronous operations are modelled as pure state
transformers returning `Except String _` for the promise
resolve/reject outcome; external calls (native driver connect,
`connection.end()`, the SSH handshake) are parameters supplied through
a `ProviderBehavior` record.
-/

namespace DBX

/-- Characters that Lean source rules make awkward as literals. -/
def lbrace : Char := Char.ofNat 123

def rbrace : Char := Char.ofNat 125

def squote : Char := Char.ofNat 39

/-- JavaScript `Map.prototype.get` on an association list. -/
def alookup {α : Type} : List (String × α) → String → Option α
  | [], _ => none
  | (k', v) :: rest, k => if k' = k then some v else alookup rest k

/-- JavaScript `Map.prototype.set`: replace in place, else append. -/
def aset {α : Type} : List (String × α) → String → α → List (String × α)
  | [], k, v => [(k, v)]
  | (k', v') :: rest, k, v =>
    if k' = k then (k, v) :: rest else (k', v') :: aset rest k v

/-- JavaScript `Map.prototype.delete`. -/
def adel {α : Type} (l : List (String × α)) (k : String) : List (String × α) :=
  l.filter (fun p => p.1 ≠ k)

/-- The fifteen protocol kinds of `ConnectionType` in `src/core/types.ts`. -/
inductive ConnectionType
  | postgresql | mysql | sqlite | mongodb | neo4j | mariadb | redis
  | bullmq | elasticsearch | ssh | docker | ftp | sftp | kafka | rabbitmq
  deriving DecidableEq, Repr

/-- The string value of each `ConnectionType` enum member. -/
def ConnectionType.value : ConnectionType → String
  | .postgresql => "postgresql"
  | .mysql => "mysql"
  | .sqlite => "sqlite"
  | .mongodb => "mongodb"
  | .neo4j => "neo4j"
  | .mariadb => "mariadb"
  | .redis => "redis"
  | .bullmq => "bullmq"
  | .elasticsearch => "elasticsearch"
  | .ssh => "ssh"
  | .docker => "docker"
  | .ftp => "ftp"
  | .sftp => "sftp"
  | .kafka => "kafka"
  | .rabbitmq => "rabbitmq"

/-- The nested `sshTunnel` descriptor of `ConnectionConfig` (types.ts). -/
structure SshTunnelDescriptor where
  enabled : Bool
  host : String
  port : Nat
  username : String
  deriving DecidableEq, Repr

/-- `ConnectionConfig` from `src/core/types.ts`.  The interface has no
password or private-key field; secrets are managed by `SecretManager`. -/
structure ConnectionConfig where
  id : String
  name : String
  type : ConnectionType
  host : Option String := none
  port : Option Nat := none
  database : Option String := none
  username : Option String := none
  ssl : Option Bool := none
  sshTunnel : Option SshTunnelDescriptor := none
  options : Option (List (String × String)) := none
  deriving DecidableEq, Repr

/-- `ConnectionStatus` from `src/core/types.ts`.  `lastConnected` and
`error` are `Option` because the source's object literals include each
key only on the corresponding path. -/
structure ConnectionStatus where
  id : String
  connected : Bool
  lastConnected : Option Nat
  error : Option String
  deriving DecidableEq, Repr

/-- Credential payload handed to `SecretManager.storeCredentials`
(`credentials: any` in the source; the shapes actually passed are
`{ password }` and `{ password, privateKey }`). -/
structure Credentials where
  password : Option String := none
  privateKey : Option String := none
  deriving DecidableEq, Repr

/-- JSON values as produced by `JSON.parse` on credential blobs.
Numbers keep their lexeme; no claim computes with them. -/
inductive Json
  | null
  | bool (b : Bool)
  | num (lexeme : String)
  | str (s : String)
  | arr (elems : List Json)
  | obj (fields : List (String × Json))
  deriving Repr

/-- JavaScript truthiness on parsed JSON values. -/
def Json.truthy : Json → Bool
  | .null => false
  | .bool b => b
  | .num l =>
    -- a numeric literal is falsy exactly when its value is zero,
    -- i.e. every mantissa digit is 0
    let mantissa := (l.data.filter (fun c => c.isDigit ∨ c = '.')).takeWhile
      (fun c => c ≠ 'e' ∧ c ≠ 'E')
    ¬ (mantissa.filter Char.isDigit).all (fun c => c = '0')
  | .str s => s ≠ ""
  | .arr _ => true
  | .obj _ => true

/-! ### A model of `JSON.parse` / `JSON.stringify`
`JSON.parse` is a host builtin; this parser models its grammar (RFC 8259)
closely enough for the credential blobs this system reads and writes:
objects, arrays, strings with escapes, integers/fractions/exponents,
literals, strict whitespace.  Malformed input yields `none` (the host
function throws, which `SecretManager.getCredentials` catches). -/

def jsonWs (c : Char) : Bool :=
  c = ' ' ∨ c = '\t' ∨ c = '\n' ∨ c = '\r'

def skipWs (cs : List Char) : List Char :=
  cs.dropWhile jsonWs

def hexVal (c : Char) : Option Nat :=
  if '0' ≤ c ∧ c ≤ '9' then some (c.toNat - '0'.toNat)
  else if 'a' ≤ c ∧ c ≤ 'f' then some (c.toNat - 'a'.toNat + 10)
  else if 'A' ≤ c ∧ c ≤ 'F' then some (c.toNat - 'A'.toNat + 10)
  else none

/-- Parse the remainder of a JSON string literal (after the opening quote). -/
def parseStringRest : Nat → List Char → List Char → Option (String × List Char)
  | 0, _, _ => none
  | _ + 1, _, [] => none
  | fuel + 1, acc, c :: rest =>
    if c = '"' then some (String.mk acc.reverse, rest)
    else if c = '\\' then
      match rest with
      | [] => none
      | e :: rest' =>
        if e = '"' then parseStringRest fuel ('"' :: acc) rest'
        else if e = '\\' then parseStringRest fuel ('\\' :: acc) rest'
        else if e = '/' then parseStringRest fuel ('/' :: acc) rest'
        else if e = 'b' then parseStringRest fuel (Char.ofNat 8 :: acc) rest'
        else if e = 'f' then parseStringRest fuel (Char.ofNat 12 :: acc) rest'
        else if e = 'n' then parseStringRest fuel ('\n' :: acc) rest'
        else if e = 'r' then parseStringRest fuel ('\r' :: acc) rest'
        else if e = 't' then parseStringRest fuel ('\t' :: acc) rest'
        else if e = 'u' then
          match rest' with
          | h1 :: h2 :: h3 :: h4 :: rest'' =>
            match hexVal h1, hexVal h2, hexVal h3, hexVal h4 with
            | some a, some b, some c', some d =>
              parseStringRest fuel
                (Char.ofNat (((a * 16 + b) * 16 + c') * 16 + d) :: acc) rest''
            | _, _, _, _ => none
          | _ => none
        else none
    else if c.toNat < 32 then none
    else parseStringRest fuel (c :: acc) rest

/-- Parse a JSON number, returning its lexeme. -/
def parseNumber (cs : List Char) : Option (String × List Char) :=
  let (sign, cs1) := if cs.head? = some '-' then (['-'], cs.drop 1) else ([], cs)
  match cs1 with
  | [] => none
  | c :: _ =>
    if ¬ c.isDigit then none
    else
      let intPart := cs1.takeWhile Char.isDigit
      let cs2 := cs1.dropWhile Char.isDigit
      -- leading zeros are invalid JSON ("01")
      if intPart.length > 1 ∧ intPart.head? = some '0' then none
      else
        let (fracPart, cs3) :=
          if cs2.head? = some '.' then
            let ds := (cs2.drop 1).takeWhile Char.isDigit
            (if ds = [] then none else some ('.' :: ds), (cs2.drop 1).dropWhile Char.isDigit)
          else (some [], cs2)
        match fracPart with
        | none => none
        | some fp =>
          let (expPart, cs4) :=
            if cs3.head? = some 'e' ∨ cs3.head? = some 'E' then
              let e := cs3.headD 'e'
              let afterE := cs3.drop 1
              let (es, afterS) :=
                if afterE.head? = some '+' ∨ afterE.head? = some '-' then
                  ([afterE.headD '+'], afterE.drop 1)
                else ([], afterE)
              let ds := afterS.takeWhile Char.isDigit
              (if ds = [] then none else some (e :: es ++ ds),
               afterS.dropWhile Char.isDigit)
            else (some [], cs3)
          match expPart with
          | none => none
          | some ep => some (String.mk (sign ++ intPart ++ fp ++ ep), cs4)

mutual

/-- Parse one JSON value. -/
def parseValue : Nat → List Char → Option (Json × List Char)
  | 0, _ => none
  | fuel + 1, cs =>
    match skipWs cs with
    | [] => none
    | 'n' :: 'u' :: 'l' :: 'l' :: rest => some (.null, rest)
    | 't' :: 'r' :: 'u' :: 'e' :: rest => some (.bool true, rest)
    | 'f' :: 'a' :: 'l' :: 's' :: 'e' :: rest => some (.bool false, rest)
    | '"' :: rest =>
      match parseStringRest (rest.length + 1) [] rest with
      | some (s, rest') => some (.str s, rest')
      | none => none
    | c :: rest =>
      if c = '[' then
        match skipWs rest with
        | ']' :: rest' => some (.arr [], rest')
        | cs' => parseArrayItems fuel cs' []
      else if c = lbrace then
        match skipWs rest with
        | cs' =>
          if cs'.head? = some rbrace then some (.obj [], cs'.drop 1)
          else parseObjItems fuel cs' []
      else if c = '-' ∨ c.isDigit then
        match parseNumber (c :: rest) with
        | some (lex, rest') => some (.num lex, rest')
        | none => none
      else none

/-- Parse array elements after `[` (at least one element remains). -/
def parseArrayItems : Nat → List Char → List Json → Option (Json × List Char)
  | 0, _, _ => none
  | fuel + 1, cs, acc =>
    match parseValue fuel cs with
    | none => none
    | some (v, rest) =>
      match skipWs rest with
      | ',' :: rest' => parseArrayItems fuel rest' (v :: acc)
      | ']' :: rest' => some (.arr (v :: acc).reverse, rest')
      | _ => none

/-- Parse object members after `{` (at least one member remains). -/
def parseObjItems : Nat → List Char → List (String × Json) →
    Option (Json × List Char)
  | 0, _, _ => none
  | fuel + 1, cs, acc =>
    match skipWs cs with
    | '"' :: rest =>
      match parseStringRest (rest.length + 1) [] rest with
      | none => none
      | some (key, rest') =>
        match skipWs rest' with
        | ':' :: rest'' =>
          match parseValue fuel rest'' with
          | none => none
          | some (v, rest3) =>
            match skipWs rest3 with
            | ',' :: rest4 => parseObjItems fuel rest4 ((key, v) :: acc)
            | c :: rest4 =>
              if c = rbrace then some (.obj ((key, v) :: acc).reverse, rest4)
              else none
            | [] => none
        | _ => none
    | _ => none

end

/-- Model of `JSON.parse`: `none` when the host function would throw. -/
def jsonParse (s : String) : Option Json :=
  match parseValue (s.length + 1) s.data with
  | some (j, rest) => if skipWs rest = [] then some j else none
  | none => none

/-- Escape a string for inclusion in a JSON document. -/
def jsonEscape (s : String) : String :=
  String.mk (s.data.flatMap (fun c =>
    if c = '"' then ['\\', '"']
    else if c = '\\' then ['\\', '\\']
    else if c = '\n' then ['\\', 'n']
    else if c = '\r' then ['\\', 'r']
    else if c = '\t' then ['\\', 't']
    else [c]))

/-- `JSON.stringify` on a credentials object: keys appear in declaration
order and only when the field is not `undefined`. -/
def stringifyCredentials (c : Credentials) : String :=
  let fields :=
    (match c.password with
     | some p => ["\"password\":\"" ++ jsonEscape p ++ "\""]
     | none => []) ++
    (match c.privateKey with
     | some k => ["\"privateKey\":\"" ++ jsonEscape k ++ "\""]
     | none => [])
  String.mk [lbrace] ++ String.intercalate "," fields ++ String.mk [rbrace]

/-! ### SecretManager (`src/core/secretManager.ts`)
The VS Code `SecretStorage` backend is modelled as an association list
from storage keys to blob strings. -/

namespace SecretManager

/-- The storage key used for one connection id. -/
def secretKey (connectionId : String) : String :=
  "dbservices." ++ connectionId

/-- `SecretManager.storeCredentials`: stores `JSON.stringify(credentials)`
under `dbservices.<id>`. -/
def storeCredentials (secrets : List (String × String)) (connectionId : String)
    (credentials : Credentials) : List (String × String) :=
  aset secrets (secretKey connectionId) (stringifyCredentials credentials)

/-- `SecretManager.getCredentials`: absent or empty blob yields `null`;
`JSON.parse` failure is caught and yields `null` (`none` here).  A parse
result of JSON `null` is returned as the host value `null`, folded into
`none` as well. -/
def getCredentials (secrets : List (String × String)) (connectionId : String) :
    Option Json :=
  match alookup secrets (secretKey connectionId) with
  | none => none
  | some blob =>
    if blob = "" then none
    else
      match jsonParse blob with
      | none => none
      | some .null => none
      | some j => some j

/-- `SecretManager.deleteCredentials`. -/
def deleteCredentials (secrets : List (String × String)) (connectionId : String) :
    List (String × String) :=
  adel secrets (secretKey connectionId)

end SecretManager

/-! ### Provider session maps and external behavior
`BaseConnectionProvider` keeps `connections: Map<string, handle>`; the
handle itself is opaque, so the map is modelled by its key set (a list of
connection ids).  Outcomes of native-client calls are parameters. -/

/-- Outcomes of the external native-client calls one broker operation
may perform: provider module loading (`getProvider` returning non-null),
the native connect, and the native teardown (`connection.end()`). -/
structure ProviderBehavior where
  available : Bool
  connectResult : Except String Unit
  endResult : Except String Unit
  deriving Repr

/-- `MySQLProvider.disconnect` (src/providers/mysqlProvider.ts, lines
22-28): if a session exists, await `connection.end()` (which may
reject) and delete the map entry; with no session, return without
error. -/
def providerDisconnect (pb : ProviderBehavior) (sessions : List String)
    (connectionId : String) : Except String (List String) :=
  if connectionId ∈ sessions then
    match pb.endResult with
    | .error e => .error e
    | .ok _ => .ok (sessions.filter (fun s => s ≠ connectionId))
  else .ok sessions

/-- Successful `provider.connect` stores the session handle under
`config.id` (`this.connections.set(config.id, connection)`). -/
def providerAddSession (sessions : List String) (connectionId : String) :
    List String :=
  if connectionId ∈ sessions then sessions else sessions ++ [connectionId]

/-! ### ConnectionManager (`src/core/connectionManager.ts`) -/

/-- The mutable state owned by `ConnectionManager` plus the session map
of the (single, cached) provider instance the operation routes to, and
the secret store. -/
structure ManagerState where
  connections : List (String × ConnectionConfig)
  connectionStatus : List (String × ConnectionStatus)
  secrets : List (String × String)
  sessions : List String
  deriving Repr

namespace ConnectionManager

/-- `ConnectionManager.isConnected`: `status?.connected ?? false`. -/
def isConnected (st : ManagerState) (connectionId : String) : Bool :=
  match alookup st.connectionStatus connectionId with
  | some status => status.connected
  | none => false

/-- `ConnectionManager.getConnection`. -/
def getConnection (st : ManagerState) (connectionId : String) :
    Option ConnectionConfig :=
  alookup st.connections connectionId

/-- `ConnectionManager.getConnectionStatus`. -/
def getConnectionStatus (st : ManagerState) (connectionId : String) :
    Option ConnectionStatus :=
  alookup st.connectionStatus connectionId

/-- `ConnectionManager.validateConnectionConfig`.  JavaScript truthiness:
`!config.id` holds for the empty string, `!config.port` for an absent
port and for port 0. -/
def validateConnectionConfig (config : ConnectionConfig) : Except String Unit :=
  if config.id = "" ∨ config.name = "" then
    .error "Invalid connection configuration: missing required fields"
  else
    match config.type with
    | .sqlite =>
      match config.database with
      | some db => if db = "" then .error "Database file path is required for SQLite" else .ok ()
      | none => .error "Database file path is required for SQLite"
    | .docker =>
      match config.host with
      | some h =>
        if h ≠ "" ∧ h ≠ "local" ∧ h ≠ "unix" ∧ ¬ h.startsWith "/" then
          match config.port with
          | some p => if p = 0 then .error "Port is required when using remote Docker host" else .ok ()
          | none => .error "Port is required when using remote Docker host"
        else .ok ()
      | none => .ok ()
    | _ =>
      match config.host with
      | none => .error "Host is required for this connection type"
      | some h =>
        if h = "" then .error "Host is required for this connection type"
        else
          match config.port with
          | none => .error "Port is required for this connection type"
          | some p =>
            if p = 0 then .error "Port is required for this connection type"
            else .ok ()

/-- `ConnectionManager.addConnection`: validate, store the config in the
connections map, store the credentials with the SecretManager, persist.
The credentials object never touches the connections map. -/
def addConnection (st : ManagerState) (config : ConnectionConfig)
    (credentials : Credentials) : ManagerState × Except String Unit :=
  match validateConnectionConfig config with
  | .error e => (st, .error e)
  | .ok _ =>
    ({ st with
        connections := aset st.connections config.id config,
        secrets := SecretManager.storeCredentials st.secrets config.id credentials },
     .ok ())

/-- The message thrown when no credentials are stored for a connection. -/
def noCredentialsMsg : String :=
  "No credentials found. Please edit connection and re-enter credentials."

/-- `ConnectionManager.connect`.  `now` stands for `new Date()`.  Failure
paths: unknown id and unavailable provider throw before the `try` block
(status untouched); absent credentials and a rejecting provider connect
are caught, recorded in the status map, and re-thrown. -/
def connect (st : ManagerState) (pb : ProviderBehavior) (now : Nat)
    (connectionId : String) : ManagerState × Except String Unit :=
  match alookup st.connections connectionId with
  | none => (st, .error ("Connection " ++ connectionId ++ " not found"))
  | some config =>
    if ¬ pb.available then
      (st, .error ("Provider for " ++ config.type.value ++ " not available"))
    else
      let creds := SecretManager.getCredentials st.secrets connectionId
      match creds with
      | some j =>
        if j.truthy then
          match pb.connectResult with
          | .ok _ =>
            ({ st with
                sessions := providerAddSession st.sessions connectionId,
                connectionStatus := aset st.connectionStatus connectionId
                  ⟨connectionId, true, some now, none⟩ },
             .ok ())
          | .error e =>
            ({ st with
                connectionStatus := aset st.connectionStatus connectionId
                  ⟨connectionId, false, none, some e⟩ },
             .error e)
        else
          ({ st with
              connectionStatus := aset st.connectionStatus connectionId
                ⟨connectionId, false, none, some noCredentialsMsg⟩ },
           .error noCredentialsMsg)
      | none =>
        ({ st with
            connectionStatus := aset st.connectionStatus connectionId
              ⟨connectionId, false, none, some noCredentialsMsg⟩ },
         .error noCredentialsMsg)

/-- `ConnectionManager.disconnect`: unknown id throws; otherwise the
provider's disconnect runs only when a provider is available and the
status is connected (and its rejection propagates before the status is
updated); finally the status is set to `{ connected: false }`. -/
def disconnect (st : ManagerState) (pb : ProviderBehavior)
    (connectionId : String) : ManagerState × Except String Unit :=
  match alookup st.connections connectionId with
  | none => (st, .error ("Connection " ++ connectionId ++ " not found"))
  | some _config =>
    if pb.available ∧ isConnected st connectionId then
      match providerDisconnect pb st.sessions connectionId with
      | .error e => (st, .error e)
      | .ok sessions' =>
        ({ st with
            sessions := sessions',
            connectionStatus := aset st.connectionStatus connectionId
              ⟨connectionId, false, none, none⟩ },
         .ok ())
    else
      ({ st with
          connectionStatus := aset st.connectionStatus connectionId
            ⟨connectionId, false, none, none⟩ },
       .ok ())

/-- The observable steps of `ConnectionManager.deleteConnection`, in
source order, paired with the state after each step. -/
inductive DeleteStep
  | disconnected
  | configRemoved
  | statusRemoved
  | credentialsDeleted
  deriving DecidableEq, Repr

/-- `ConnectionManager.deleteConnection`: disconnect when connected (a
rejection aborts the whole delete), then remove the config entry, then
the status entry, then the secret-store entry.  Returns the final state,
the outcome, and the trace of steps with their post-states. -/
def deleteConnection (st : ManagerState) (pb : ProviderBehavior)
    (connectionId : String) :
    ManagerState × Except String Unit × List (DeleteStep × ManagerState) :=
  let step1 : Except String (ManagerState × List (DeleteStep × ManagerState)) :=
    if isConnected st connectionId then
      match disconnect st pb connectionId with
      | (st1, .ok _) => .ok (st1, [(.disconnected, st1)])
      | (_, .error e) => .error e
    else .ok (st, [])
  match step1 with
  | .error e => (st, .error e, [])
  | .ok (st1, tr1) =>
    let st2 := { st1 with connections := adel st1.connections connectionId }
    let st3 := { st2 with connectionStatus := adel st2.connectionStatus connectionId }
    let st4 := { st3 with secrets := SecretManager.deleteCredentials st3.secrets connectionId }
    (st4, .ok (),
     tr1 ++ [(.configRemoved, st2), (.statusRemoved, st3), (.credentialsDeleted, st4)])

end ConnectionManager

/-- The flattened key/value record that persisting a `ConnectionConfig`
produces (the interface's declared keys, in declaration order; optional
keys appear only when present).  `saveConnections` stores the config
objects as-is, so this is exactly the persisted field set. -/
def persistedFields (c : ConnectionConfig) : List (String × String) :=
  [("id", c.id), ("name", c.name), ("type", c.type.value)] ++
  (match c.host with | some h => [("host", h)] | none => []) ++
  (match c.port with | some p => [("port", toString p)] | none => []) ++
  (match c.database with | some d => [("database", d)] | none => []) ++
  (match c.username with | some u => [("username", u)] | none => []) ++
  (match c.ssl with | some b => [("ssl", toString b)] | none => []) ++
  (match c.sshTunnel with
   | some t => [("sshTunnel", t.host ++ ":" ++ toString t.port ++ ":" ++ t.username)]
   | none => []) ++
  (match c.options with
   | some opts => [("options", String.intercalate ";" (opts.map (fun p => p.1 ++ "=" ++ p.2)))]
   | none => [])

/-! ### TunnelManager (`src/core/tunnelManager.ts`) -/

/-- The tunnel descriptor passed to `createTunnel`. -/
structure TunnelConfig where
  sshHost : String
  sshPort : Nat
  sshUsername : String
  targetHost : String
  targetPort : Nat
  deriving DecidableEq, Repr

/-- One entry of the `activeTunnels` map (the `client` and `server`
handles are opaque; the assigned local port and config are kept). -/
structure ActiveTunnel where
  localPort : Nat
  config : TunnelConfig
  deriving DecidableEq, Repr

/-- SSH credentials handed to `createTunnel`. -/
structure SshCredentials where
  password : Option String := none
  privateKey : Option String := none
  deriving DecidableEq, Repr

/-- `TunnelManager` state: the active-tunnel map plus a count of local
listening sockets ever opened (`net.createServer().listen`). -/
structure TunnelState where
  activeTunnels : List (String × ActiveTunnel)
  socketsOpened : Nat
  deriving Repr

namespace TunnelManager

/-- `TunnelManager.createTunnel`.  An existing tunnel for the id returns
its local port with no new listener.  Otherwise a local listener is
opened (`freshPort` stands for the OS-assigned ephemeral port), missing
SSH credentials reject, and the SSH handshake outcome (`sshResult`)
decides between registering the tunnel and rejecting after closing the
server. -/
def createTunnel (ts : TunnelState) (freshPort : Nat)
    (sshResult : Except String Unit) (connectionId : String)
    (tunnelConfig : TunnelConfig) (sshCredentials : SshCredentials) :
    TunnelState × Except String Nat :=
  match alookup ts.activeTunnels connectionId with
  | some existing => (ts, .ok existing.localPort)
  | none =>
    let ts1 := { ts with socketsOpened := ts.socketsOpened + 1 }
    match sshCredentials.privateKey, sshCredentials.password with
    | none, none =>
      (ts1, .error "SSH credentials required (password or private key)")
    | _, _ =>
      match sshResult with
      | .ok _ =>
        ({ ts1 with
            activeTunnels := aset ts1.activeTunnels connectionId
              ⟨freshPort, tunnelConfig⟩ },
         .ok freshPort)
      | .error e => (ts1, .error ("SSH tunnel error: " ++ e))

/-- `TunnelManager.hasTunnel`. -/
def hasTunnel (ts : TunnelState) (connectionId : String) : Bool :=
  (alookup ts.activeTunnels connectionId).isSome

/-- `TunnelManager.getLocalPort`. -/
def getLocalPort (ts : TunnelState) (connectionId : String) : Option Nat :=
  (alookup ts.activeTunnels connectionId).map ActiveTunnel.localPort

end TunnelManager

/-! ### JavaScript string helpers used by the script splitters -/

/-- Whitespace removed by `String.prototype.trim` (ASCII portion). -/
def jsTrimWs (c : Char) : Bool :=
  c = ' ' ∨ c = '\t' ∨ c = '\n' ∨ c = '\r' ∨ c = Char.ofNat 11 ∨ c = Char.ofNat 12

/-- `String.prototype.trim` on a character list. -/
def jsTrimList (cs : List Char) : List Char :=
  ((cs.dropWhile jsTrimWs).reverse.dropWhile jsTrimWs).reverse

/-- `String.prototype.trim`. -/
def jsTrim (s : String) : String :=
  String.mk (jsTrimList s.data)

/-- Split a character list on a separator character: the helper for
JavaScript `String.prototype.split` with a one-character separator. -/
def splitOnChar (sep : Char) : List Char → List (List Char)
  | [] => [[]]
  | c :: rest =>
    match splitOnChar sep rest with
    | [] => [[c]]
    | h :: t => if c = sep then [] :: h :: t else (c :: h) :: t

/-- JavaScript `String.prototype.split` with a one-character separator
(`"a;;b".split(';')` is `["a","","b"]`, `"x;".split(';')` is `["x",""]`). -/
def jsSplit (s : String) (sep : Char) : List String :=
  (splitOnChar sep s.data).map String.mk

/-- `String.prototype.startsWith('--')`. -/
def startsWithDashDash (s : String) : Bool :=
  match s.data with
  | '-' :: '-' :: _ => true
  | _ => false

/-! ### ConnectionExplorer.runSQLScript (src/unnamed/part_000, 1170-1254) -/

namespace ConnectionExplorer

/-- The statement list `runSQLScript` executes from the editor text:
`script.split(';').filter(s => s.trim() && !s.trim().startsWith('--'))`,
each statement then trimmed in the loop before execution. -/
def runSQLScriptStatements (script : String) : List String :=
  ((jsSplit script ';').filter
    (fun s => jsTrim s ≠ "" ∧ ¬ startsWithDashDash (jsTrim s))).map jsTrim

/-- Everything `runSQLScript` sends to `provider.executeQuery`, in
order: for MySQL/MariaDB with a configured database, a `USE` statement
built from `config.database` (its failure tolerated) runs first; then
every statement of the split script. -/
def runSQLScriptExecuted (ctype : ConnectionType) (cfgDatabase : Option String)
    (script : String) : List String :=
  (match cfgDatabase with
   | some db =>
     if ctype = .mysql ∨ ctype = .mariadb then ["USE `" ++ db ++ "`"] else []
   | none => []) ++
  runSQLScriptStatements script

/-- The result surfaced by `runSQLScript`: the JSON document holds
`results`, the array of every statement's result (the leading config
`USE`, if any, is not pushed into `results`). -/
def runSQLScriptSurfaced (exec : String → Json) (script : String) : List Json :=
  (runSQLScriptStatements script).map exec

/-! #### ConnectionExplorer.parseMongoArguments (part_000, 1123-1167) -/

/-- Loop state of `parseMongoArguments`: collected arguments, the
characters of `currentArg`, the bracket `depth`, and the string-literal
tracking pair. -/
structure MongoSplitState where
  args : List String
  current : List Char
  depth : Int
  inString : Bool
  stringChar : Char

/-- One iteration of the `parseMongoArguments` loop body for character
`c` with previous character `prev` (`none` models the empty string at
index 0). -/
def parseMongoArgumentsStep (st : MongoSplitState) (c : Char) (prev : Option Char) :
    MongoSplitState :=
  let (inString, stringChar) :=
    if (c = '"' ∨ c = squote) ∧ prev ≠ some '\\' then
      if ¬ st.inString then (true, c)
      else if c = st.stringChar then (false, st.stringChar)
      else (st.inString, st.stringChar)
    else (st.inString, st.stringChar)
  if ¬ inString ∧ (c = lbrace ∨ c = '[' ∨ c = '(') then
    { st with
        inString := inString, stringChar := stringChar,
        depth := st.depth + 1, current := st.current ++ [c] }
  else if ¬ inString ∧ (c = rbrace ∨ c = ']' ∨ c = ')') then
    { st with
        inString := inString, stringChar := stringChar,
        depth := st.depth - 1, current := st.current ++ [c] }
  else if ¬ inString ∧ c = ',' ∧ st.depth = 0 then
    { st with
        inString := inString, stringChar := stringChar,
        args := st.args ++ [jsTrim (String.mk st.current)], current := [] }
  else
    { st with
        inString := inString, stringChar := stringChar,
        current := st.current ++ [c] }

/-- The `parseMongoArguments` character loop. -/
def parseMongoArgumentsLoop : List Char → Option Char → MongoSplitState →
    MongoSplitState
  | [], _, st => st
  | c :: rest, prev, st =>
    parseMongoArgumentsLoop rest (some c) (parseMongoArgumentsStep st c prev)

/-- `ConnectionExplorer.parseMongoArguments`: split an argument string
on top-level commas, tracking bracket depth and string literals; a final
non-empty argument is pushed after the loop. -/
def parseMongoArguments (argsStr : String) : List String :=
  let st := parseMongoArgumentsLoop argsStr.data none
    ⟨[], [], 0, false, Char.ofNat 0⟩
  if jsTrim (String.mk st.current) = "" then st.args
  else st.args ++ [jsTrim (String.mk st.current)]

end ConnectionExplorer

/-! ### SavedQueriesProvider.executeQuery (src/views/savedQueries.ts) -/

namespace SavedQueries

/-- Match of the regex `^USE\s+`([^`]+)`;\s*\n` (case-insensitive on
`USE`): returns the matched prefix `match[0]` and the remainder of the
query.  The greedy `\s*` backtracks so the match ends at the last
newline of the whitespace run following the `;`. -/
def matchUseStatement (query : String) : Option (String × String) :=
  match query.data with
  | u :: s :: e :: rest =>
    if (u = 'U' ∨ u = 'u') ∧ (s = 'S' ∨ s = 's') ∧ (e = 'E' ∨ e = 'e') then
      let wsRun := rest.takeWhile jsTrimWs
      let afterWs := rest.dropWhile jsTrimWs
      if wsRun = [] then none
      else
        match afterWs with
        | '`' :: nameRest =>
          let dbName := nameRest.takeWhile (fun c => c ≠ '`')
          let afterName := nameRest.dropWhile (fun c => c ≠ '`')
          if dbName = [] then none
          else
            match afterName with
            | '`' :: ';' :: tail =>
              let tailWs := tail.takeWhile jsTrimWs
              let tailRest := tail.dropWhile jsTrimWs
              -- `\s*\n`: the match consumes the whitespace run up to and
              -- including its last newline; without a newline there is
              -- no match
              match (tailWs.reverse.dropWhile (fun c => c ≠ '\n')) with
              | [] => none
              | _ :: wsBefore =>
                let leftover := (tailWs.reverse.takeWhile (fun c => c ≠ '\n')).reverse
                some (String.mk ([u, s, e] ++ wsRun ++ ['`'] ++ dbName ++ ['`', ';']
                        ++ wsBefore.reverse ++ ['\n']),
                      String.mk (leftover ++ tailRest))
            | _ => none
        | _ => none
    else none
  | _ => none

/-- The statement list the saved-query path executes after USE
stripping: the same `split(';')`/filter as `runSQLScript`. -/
def savedQueryStatements (queryToExecute : String) : List String :=
  ConnectionExplorer.runSQLScriptStatements queryToExecute

/-- Everything `SavedQueriesProvider.executeQuery` sends to
`provider.executeQuery` for a SQL-family connection: the trimmed matched
`USE` statement first when the query starts with one (failure
tolerated), then each remaining statement in order. -/
def savedQueryExecuted (query : String) : List String :=
  match matchUseStatement query with
  | some (matched, rest) => jsTrim matched :: savedQueryStatements rest
  | none => savedQueryStatements query

/-- The surfaced result of the saved-query path: the last statement's
result (`results[results.length - 1]`), `none` when no statement ran. -/
def savedQuerySurfaced (exec : String → Json) (query : String) : Option Json :=
  let rest := match matchUseStatement query with
    | some (_, r) => r
    | none => query
  ((savedQueryStatements rest).map exec).getLast?

end SavedQueries

/-! ### ConnectionExplorer.importConnections (part_000, 2490-2595) -/

namespace ConnectionExplorer

/-- One record of the `connections` array of an import file. -/
structure ImportedConn where
  id : Option String := none
  name : String
  type : ConnectionType
  host : Option String := none
  port : Option Nat := none
  database : Option String := none
  username : Option String := none
  password : Option String := none
  /-- The `_passwordExcluded` marker of exports made without passwords. -/
  passwordExcluded : Bool := false
  deriving DecidableEq, Repr

/-- JavaScript truthiness of an optional string property. -/
def truthyStr : Option String → Bool
  | some s => s ≠ ""
  | none => false

/-- The password string `importConnections` computes for one record:
decode an included encoded password; else, for an excluded password,
take the user's entry when one is given; else keep `''`.  `decode`
stands for `Buffer.from(_, 'base64').toString('utf-8')` and `entered`
for the `showInputBox` result. -/
def importPassword (decode : String → String) (passwordsIncluded : Bool)
    (conn : ImportedConn) (entered : Option String) : String :=
  if passwordsIncluded ∧ truthyStr conn.password then
    decode (conn.password.getD "")
  else if conn.passwordExcluded then
    match entered with
    | some p => if p ≠ "" then p else ""
    | none => ""
  else ""

/-- The `newConfig` record `importConnections` builds for one imported
record; a missing or empty (falsy) `conn.id` is replaced by a fresh
generated id. -/
def importedConfig (conn : ImportedConn) (freshId : String) : ConnectionConfig :=
  { id := match conn.id with
      | some s => if s ≠ "" then s else freshId
      | none => freshId,
    name := conn.name,
    type := conn.type,
    host := conn.host,
    port := conn.port,
    database := conn.database,
    username := conn.username }

/-- The per-record body of `importConnections`: on a name collision,
skip unless the user chooses Overwrite (which first deletes the existing
connection); build `newConfig`; compute the password; call
`addConnection(newConfig, { password })`. -/
def importOne (decode : String → String) (st : ManagerState)
    (pb : ProviderBehavior) (passwordsIncluded : Bool) (conn : ImportedConn)
    (overwriteChoice : Bool) (entered : Option String) (freshId : String) :
    ManagerState × Except String Unit :=
  let proceed : ManagerState → ManagerState × Except String Unit := fun st' =>
    let password := importPassword decode passwordsIncluded conn entered
    ConnectionManager.addConnection st' (importedConfig conn freshId)
      ⟨some password, none⟩
  match (st.connections.map Prod.snd).find? (fun c => c.name = conn.name) with
  | some existing =>
    if overwriteChoice then
      match ConnectionManager.deleteConnection st pb existing.id with
      | (st1, .ok _, _) => proceed st1
      | (_, .error e, _) => (st, .error e)
    else (st, .ok ())
  | none => proceed st

end ConnectionExplorer

/-! ### Sample states used to evaluate the operations concretely -/

/-- A PostgreSQL config that passes validation. -/
def sampleConfig : ConnectionConfig :=
  { id := "c1", name := "db", type := .postgresql,
    host := some "localhost", port := some 5432,
    database := some "testdb", username := some "u" }

/-- A broker state with `sampleConfig` registered, connected, and with a
stored credential blob. -/
def connectedState : ManagerState :=
  { connections := [("c1", sampleConfig)],
    connectionStatus := [("c1", ⟨"c1", true, some 0, none⟩)],
    secrets := [("dbservices.c1", stringifyCredentials ⟨some "p", none⟩)],
    sessions := ["c1"] }

/-- A broker state with `sampleConfig` registered but never connected. -/
def registeredState : ManagerState :=
  { connections := [("c1", sampleConfig)],
    connectionStatus := [],
    secrets := [("dbservices.c1", stringifyCredentials ⟨some "p", none⟩)],
    sessions := [] }

/-- The empty broker state. -/
def emptyState : ManagerState :=
  { connections := [], connectionStatus := [], secrets := [], sessions := [] }

/-- External calls all succeed. -/
def pbOk : ProviderBehavior := ⟨true, .ok (), .ok ()⟩

/-- Provider module unavailable (dynamic import failed / unknown kind). -/
def pbUnavailable : ProviderBehavior := ⟨false, .ok (), .ok ()⟩

/-- Provider available but the native teardown (`connection.end()`)
rejects. -/
def pbEndFails : ProviderBehavior := ⟨true, .ok (), .error "end failed"⟩

/-- A sample tunnel descriptor. -/
def sampleTunnelConfig : TunnelConfig :=
  ⟨"bastion", 22, "ops", "db.internal", 5432⟩

/-- An imported record whose password was excluded from the export. -/
def sampleImported : ConnectionExplorer.ImportedConn :=
  { id := some "c9", name := "imported", type := .postgresql,
    host := some "h", port := some 5432, database := some "db",
    username := some "u", passwordExcluded := true }

/-! ### Helper lemmas on the map model -/

theorem alookup_aset_self {α : Type} (l : List (String × α)) (k : String) (v : α) :
    alookup (aset l k v) k = some v := by
  induction l with
  | nil => simp [aset, alookup]
  | cons p rest ih =>
    by_cases h : p.1 = k
    · simp [aset, h, alookup]
    · simp only [aset]
      rw [if_neg (by exact h)]
      simp [alookup, h, ih]

theorem alookup_adel_self {α : Type} (l : List (String × α)) (k : String) :
    alookup (adel l k) k = none := by
  induction l with
  | nil => simp [adel, alookup]
  | cons p rest ih =>
    by_cases h : p.1 = k
    · simpa [adel, h] using ih
    · simp only [adel, List.filter] at ih ⊢
      rw [decide_eq_true (by exact h)]
      simpa [alookup, h] using ih

theorem aset_aset_same {α : Type} (l : List (String × α)) (k : String) (v : α) :
    aset (aset l k v) k v = aset l k v := by
  induction l with
  | nil => simp [aset]
  | cons p rest ih =>
    by_cases h : p.1 = k
    · simp [aset, h]
    · simp [aset, h, ih]

/-- The persisted key set of a `ConnectionConfig` never includes a
`password` or `privateKey` key, whatever optional fields are present. -/
theorem persistedFields_keys (c : ConnectionConfig) :
    "password" ∉ (persistedFields c).map Prod.fst ∧
    "privateKey" ∉ (persistedFields c).map Prod.fst := by
  rcases c with ⟨cid, cname, cty, chost, cport, cdb, cuser, cssl, ctun, copts⟩
  rcases chost <;> rcases cport <;> rcases cdb <;> rcases cuser <;>
    rcases cssl <;> rcases ctun <;> rcases copts <;>
    simp [persistedFields]

/-- C1: after a successful `addConnection(c, credentials)`,
`getConnection(c.id)` returns `c` itself, whose persisted field set has
no `password` or `privateKey` key for any protocol kind; the
credentials influence only the secret store (the connections map is
identical whatever credentials are passed), landing under the
SecretManager's key for `c.id`. -/
theorem addConnection_secret_separation (st : ManagerState) (c : ConnectionConfig)
    (creds creds' : Credentials)
    (hval : ConnectionManager.validateConnectionConfig c = .ok ()) :
    (ConnectionManager.addConnection st c creds).2 = .ok () ∧
    ConnectionManager.getConnection (ConnectionManager.addConnection st c creds).1 c.id =
      some c ∧
    "password" ∉ (persistedFields c).map Prod.fst ∧
    "privateKey" ∉ (persistedFields c).map Prod.fst ∧
    (ConnectionManager.addConnection st c creds').1.connections =
      (ConnectionManager.addConnection st c creds).1.connections ∧
    (ConnectionManager.addConnection st c creds).1.secrets =
      SecretManager.storeCredentials st.secrets c.id creds := by
  refine ⟨?_, ?_, (persistedFields_keys c).1, (persistedFields_keys c).2, ?_, ?_⟩ <;>
    simp [ConnectionManager.addConnection, hval,
      ConnectionManager.getConnection, alookup_aset_self]

/-- C1 witness: a concrete PostgreSQL add. -/
theorem addConnection_secret_separation_witness :
    (ConnectionManager.addConnection emptyState sampleConfig ⟨some "p", none⟩).2 = .ok () ∧
    ConnectionManager.getConnection
      (ConnectionManager.addConnection emptyState sampleConfig ⟨some "p", none⟩).1
      sampleConfig.id = some sampleConfig ∧
    "password" ∉ (persistedFields sampleConfig).map Prod.fst ∧
    "privateKey" ∉ (persistedFields sampleConfig).map Prod.fst ∧
    (ConnectionManager.addConnection emptyState sampleConfig ⟨some "q", some "k"⟩).1.connections =
      (ConnectionManager.addConnection emptyState sampleConfig ⟨some "p", none⟩).1.connections ∧
    (ConnectionManager.addConnection emptyState sampleConfig ⟨some "p", none⟩).1.secrets =
      SecretManager.storeCredentials emptyState.secrets sampleConfig.id ⟨some "p", none⟩ :=
  addConnection_secret_separation emptyState sampleConfig ⟨some "p", none⟩
    ⟨some "q", some "k"⟩ (by rfl)

set_option maxRecDepth 4096 in
/-- C7: the Mongo argument splitter applied to the argument string of
`updateMany({status:"a,b"}, {$set:{x:1}})` recovers exactly the two
top-level arguments; the comma inside the quoted string does not cause
a 3-way split. -/
theorem parseMongoArguments_two_args :
    ConnectionExplorer.parseMongoArguments
        "\x7bstatus:\"a,b\"\x7d, \x7b$set:\x7bx:1\x7d\x7d" =
      ["\x7bstatus:\"a,b\"\x7d", "\x7b$set:\x7bx:1\x7d\x7d"] ∧
    (ConnectionExplorer.parseMongoArguments
        "\x7bstatus:\"a,b\"\x7d, \x7b$set:\x7bx:1\x7d\x7d").length = 2 := by
  constructor <;> decide

/-- C10: `ConnectionManager.disconnect` on an id absent from the
connections map rejects with `Connection <id> not found` and leaves the
state untouched; the idempotent no-op behavior applies only to
registered ids. -/
theorem disconnect_unregistered (st : ManagerState) (pb : ProviderBehavior)
    (id : String) (h : alookup st.connections id = none) :
    ConnectionManager.disconnect st pb id =
      (st, .error ("Connection " ++ id ++ " not found")) := by
  simp [ConnectionManager.disconnect, h]

/-- C10 witness: disconnecting an unknown id on the empty state. -/
theorem disconnect_unregistered_witness :
    ConnectionManager.disconnect emptyState pbOk "ghost" =
      (emptyState, .error ("Connection " ++ "ghost" ++ " not found")) :=
  disconnect_unregistered emptyState pbOk "ghost" (by rfl)

set_option maxRecDepth 8192 in
/-- C4 counterexample: in `ConnectionExplorer.runSQLScript` the script
`"USE \x60shop\x60;\nSELECT 1; SELECT 2;"` is split into three executed
statements — the script's own USE statement is not stripped — and the
surfaced result is the array of all three statements' results, not the
final statement's result alone; moreover the plain `split(';')` also
splits inside a string literal. -/
theorem runSQLScript_use_not_stripped :
    ConnectionExplorer.runSQLScriptStatements "USE `shop`;\nSELECT 1; SELECT 2;" =
      ["USE `shop`", "SELECT 1", "SELECT 2"] ∧
    (ConnectionExplorer.runSQLScriptStatements "USE `shop`;\nSELECT 1; SELECT 2;").length ≠ 2 ∧
    ConnectionExplorer.runSQLScriptSurfaced Json.str "USE `shop`;\nSELECT 1; SELECT 2;" =
      [Json.str "USE `shop`", Json.str "SELECT 1", Json.str "SELECT 2"] ∧
    ConnectionExplorer.runSQLScriptStatements "SELECT \"a;b\";" =
      ["SELECT \"a", "b\""] := by
  refine ⟨by decide, by decide, by rfl, by decide⟩

set_option maxRecDepth 8192 in
/-- C4 amended: the saved-query execution path
(`SavedQueriesProvider.executeQuery`) matches the claim — the leading
USE line is executed separately (failure tolerated) and stripped,
exactly two further statements run in order, and the surfaced result is
that of `SELECT 2`; `ConnectionExplorer.runSQLScript`, by contrast,
executes a USE derived from the config's database (not the script),
runs the script's own USE as an ordinary statement, and surfaces every
statement's result. -/
theorem sqlScript_split_paths :
    SavedQueries.matchUseStatement "USE `shop`;\nSELECT 1; SELECT 2;" =
      some ("USE `shop`;\n", "SELECT 1; SELECT 2;") ∧
    SavedQueries.savedQueryExecuted "USE `shop`;\nSELECT 1; SELECT 2;" =
      ["USE `shop`;", "SELECT 1", "SELECT 2"] ∧
    SavedQueries.savedQuerySurfaced Json.str "USE `shop`;\nSELECT 1; SELECT 2;" =
      some (Json.str "SELECT 2") ∧
    ConnectionExplorer.runSQLScriptExecuted .mysql (some "shop") "SELECT 1; SELECT 2;" =
      ["USE `shop`", "SELECT 1", "SELECT 2"] ∧
    ConnectionExplorer.runSQLScriptExecuted .mysql none "USE `shop`;\nSELECT 1; SELECT 2;" =
      ["USE `shop`", "SELECT 1", "SELECT 2"] ∧
    ConnectionExplorer.runSQLScriptSurfaced Json.str "USE `shop`;\nSELECT 1; SELECT 2;" =
      [Json.str "USE `shop`", Json.str "SELECT 1", Json.str "SELECT 2"] := by
  refine ⟨by decide, by decide, by rfl, by decide, by decide, by rfl⟩

/-- C8 counterexample: importing a record whose password was excluded
(`_passwordExcluded`) with no replacement supplied does write a
secret-store entry for the connection — `addConnection` is called with
an object holding the empty-string password, so the blob it stringifies
lands in the store. -/
theorem importConnections_writes_secret_entry :
    (ConnectionExplorer.importOne (fun s => s) emptyState pbOk false
        sampleImported false none "fresh").2 = .ok () ∧
    alookup (ConnectionExplorer.importOne (fun s => s) emptyState pbOk false
        sampleImported false none "fresh").1.secrets
      (SecretManager.secretKey "c9") =
      some (stringifyCredentials ⟨some "", none⟩) := by
  exact ⟨by rfl, by rfl⟩

/-- C8 amended: for an imported record with `_passwordExcluded` and no
replacement password, the import still calls `addConnection` with an
empty-string password, so a secret-store entry holding the stringified
empty-password credential object is written for the connection (real
credentials are left to be re-entered later through edit). -/
theorem importOne_excluded_password (decode : String → String) (st : ManagerState)
    (pb : ProviderBehavior) (passwordsIncluded : Bool)
    (conn : ConnectionExplorer.ImportedConn) (entered : Option String)
    (freshId : String)
    (hexc : conn.passwordExcluded = true)
    (hpw : ConnectionExplorer.truthyStr conn.password = false)
    (hent : entered = none ∨ entered = some "")
    (hnocol : (st.connections.map Prod.snd).find? (fun c => c.name = conn.name) = none)
    (hval : ConnectionManager.validateConnectionConfig
      (ConnectionExplorer.importedConfig conn freshId) = .ok ()) :
    ConnectionExplorer.importOne decode st pb passwordsIncluded conn false entered freshId =
      ({ st with
          connections := aset st.connections
            (ConnectionExplorer.importedConfig conn freshId).id
            (ConnectionExplorer.importedConfig conn freshId),
          secrets := aset st.secrets
            (SecretManager.secretKey (ConnectionExplorer.importedConfig conn freshId).id)
            (stringifyCredentials ⟨some "", none⟩) },
       .ok ()) := by
  have hpass : ConnectionExplorer.importPassword decode passwordsIncluded conn entered = "" := by
    rcases hent with h | h <;>
      simp [ConnectionExplorer.importPassword, hexc, hpw, h]
  simp [ConnectionExplorer.importOne, hnocol, hpass,
    ConnectionManager.addConnection, hval, SecretManager.storeCredentials]

/-- C8 amended witness: the concrete excluded-password import. -/
theorem importOne_excluded_password_witness :
    ConnectionExplorer.importOne (fun s => s) emptyState pbOk false
        sampleImported false none "fresh" =
      ({ emptyState with
          connections := aset emptyState.connections
            (ConnectionExplorer.importedConfig sampleImported "fresh").id
            (ConnectionExplorer.importedConfig sampleImported "fresh"),
          secrets := aset emptyState.secrets
            (SecretManager.secretKey
              (ConnectionExplorer.importedConfig sampleImported "fresh").id)
            (stringifyCredentials ⟨some "", none⟩) },
       .ok ()) :=
  importOne_excluded_password (fun s => s) emptyState pbOk false sampleImported
    none "fresh" (by rfl) (by rfl) (Or.inl rfl) (by rfl) (by rfl)

/-- C9: a stored credential blob that `JSON.parse` rejects makes
`SecretManager.getCredentials` return the absent value instead of
throwing — exactly the result for a missing entry — and a subsequent
`connect` for that id (with an available provider) fails with the
re-enter-credentials message. -/
theorem getCredentials_malformed (secrets : List (String × String)) (id blob : String)
    (hstore : alookup secrets (SecretManager.secretKey id) = some blob)
    (hbad : jsonParse blob = none) :
    SecretManager.getCredentials secrets id = none ∧
    SecretManager.getCredentials (adel secrets (SecretManager.secretKey id)) id = none ∧
    ∀ (st : ManagerState) (pb : ProviderBehavior) (now : Nat) (cfg : ConnectionConfig),
      st.secrets = secrets → alookup st.connections id = some cfg →
      pb.available = true →
      (ConnectionManager.connect st pb now id).2 =
        .error ConnectionManager.noCredentialsMsg := by
  have h1 : SecretManager.getCredentials secrets id = none := by
    simp only [SecretManager.getCredentials, hstore]
    by_cases hb : blob = ""
    · simp [hb]
    · simp [hb, hbad]
  refine ⟨h1, ?_, ?_⟩
  · simp [SecretManager.getCredentials, alookup_adel_self]
  · intro st pb now cfg hsec hreg hav
    rw [← hsec] at h1
    simp [ConnectionManager.connect, hreg, hav, h1]

/-- C9 witness: the corrupt blob `\x7boops` is treated as absent. -/
theorem getCredentials_malformed_witness :
    SecretManager.getCredentials [(SecretManager.secretKey "c1", "\x7boops")] "c1" = none ∧
    SecretManager.getCredentials
      (adel [(SecretManager.secretKey "c1", "\x7boops")] (SecretManager.secretKey "c1"))
      "c1" = none ∧
    ∀ (st : ManagerState) (pb : ProviderBehavior) (now : Nat) (cfg : ConnectionConfig),
      st.secrets = [(SecretManager.secretKey "c1", "\x7boops")] →
      alookup st.connections "c1" = some cfg →
      pb.available = true →
      (ConnectionManager.connect st pb now "c1").2 =
        .error ConnectionManager.noCredentialsMsg :=
  getCredentials_malformed [(SecretManager.secretKey "c1", "\x7boops")] "c1"
    "\x7boops" (by rfl) (by rfl)

/-- C3 counterexample: a registered connection whose provider is
unavailable fails `connect` (the error is re-raised) but its status is
never written — no `connected=false` record with a captured error
exists after the failure, contradicting the claim's universal
status-capture. -/
theorem connect_unavailable_no_status :
    (ConnectionManager.connect registeredState pbUnavailable 0 "c1").2 =
      .error ("Provider for " ++ "postgresql" ++ " not available") ∧
    ConnectionManager.getConnectionStatus
      (ConnectionManager.connect registeredState pbUnavailable 0 "c1").1 "c1" = none := by
  exact ⟨by rfl, by rfl⟩

/-- C3 amended: for a registered connection id whose provider resolves,
`connect` behaves as claimed — missing (or falsy) credentials fail fast
with the no-credentials message recorded in a `connected=false` status
and re-raised before the provider is called; a rejecting provider
connect records its message the same way and re-raises; a successful
connect records `connected=true` with the `lastConnected` timestamp.
When the provider is unavailable the error is re-raised without
touching the status. -/
theorem connect_status_capture (st : ManagerState) (pb : ProviderBehavior)
    (now : Nat) (id : String) (cfg : ConnectionConfig)
    (hreg : alookup st.connections id = some cfg)
    (hav : pb.available = true) :
    (SecretManager.getCredentials st.secrets id = none →
      ConnectionManager.connect st pb now id =
        ({ st with
            connectionStatus := aset st.connectionStatus id
              ⟨id, false, none, some ConnectionManager.noCredentialsMsg⟩ },
         .error ConnectionManager.noCredentialsMsg)) ∧
    ∀ j, SecretManager.getCredentials st.secrets id = some j → j.truthy = true →
      (∀ e, pb.connectResult = .error e →
        ConnectionManager.connect st pb now id =
          ({ st with
              connectionStatus := aset st.connectionStatus id
                ⟨id, false, none, some e⟩ },
           .error e)) ∧
      (pb.connectResult = .ok () →
        ConnectionManager.connect st pb now id =
          ({ st with
              sessions := providerAddSession st.sessions id,
              connectionStatus := aset st.connectionStatus id
                ⟨id, true, some now, none⟩ },
           .ok ())) := by
  constructor
  · intro hnone
    simp [ConnectionManager.connect, hreg, hav, hnone]
  · intro j hj htr
    constructor
    · intro e he
      simp [ConnectionManager.connect, hreg, hav, hj, htr, he]
    · intro hok
      simp [ConnectionManager.connect, hreg, hav, hj, htr, hok]

/-- C3 amended witness: the concrete registered state. -/
theorem connect_status_capture_witness :
    (SecretManager.getCredentials registeredState.secrets "c1" = none →
      ConnectionManager.connect registeredState pbOk 0 "c1" =
        ({ registeredState with
            connectionStatus := aset registeredState.connectionStatus "c1"
              ⟨"c1", false, none, some ConnectionManager.noCredentialsMsg⟩ },
         .error ConnectionManager.noCredentialsMsg)) ∧
    ∀ j, SecretManager.getCredentials registeredState.secrets "c1" = some j →
      j.truthy = true →
      (∀ e, pbOk.connectResult = .error e →
        ConnectionManager.connect registeredState pbOk 0 "c1" =
          ({ registeredState with
              connectionStatus := aset registeredState.connectionStatus "c1"
                ⟨"c1", false, none, some e⟩ },
           .error e)) ∧
      (pbOk.connectResult = .ok () →
        ConnectionManager.connect registeredState pbOk 0 "c1" =
          ({ registeredState with
              sessions := providerAddSession registeredState.sessions "c1",
              connectionStatus := aset registeredState.connectionStatus "c1"
                ⟨"c1", true, some 0, none⟩ },
           .ok ())) :=
  connect_status_capture registeredState pbOk 0 "c1" sampleConfig (by rfl) (by rfl)

/-- C5: `createTunnel` is idempotent per connection id — once a call
has succeeded with local port `p`, any later call for the same id
returns the same port `p` and leaves the tunnel state (including the
count of opened listening sockets and the active-tunnel map) entirely
unchanged, so no second listener or SSH session is opened and at most
one active tunnel exists for the id. -/
theorem createTunnel_idempotent (ts ts1 : TunnelState) (freshPort p : Nat)
    (sshResult : Except String Unit) (id : String) (cfg : TunnelConfig)
    (creds : SshCredentials)
    (h : TunnelManager.createTunnel ts freshPort sshResult id cfg creds = (ts1, .ok p)) :
    ∀ (fp' : Nat) (r' : Except String Unit) (cfg' : TunnelConfig)
      (creds' : SshCredentials),
      TunnelManager.createTunnel ts1 fp' r' id cfg' creds' = (ts1, .ok p) := by
  intro fp' r' cfg' creds'
  simp only [TunnelManager.createTunnel] at h
  split at h
  next ex heq =>
    rw [Prod.mk.injEq] at h
    obtain ⟨hts, hr⟩ := h
    injection hr with hport
    subst hts
    simp [TunnelManager.createTunnel, heq, hport]
  next heq =>
    split at h
    next =>
      rw [Prod.mk.injEq] at h
      exact absurd h.2 (by simp)
    next =>
      split at h
      next hok =>
        rw [Prod.mk.injEq] at h
        obtain ⟨hts, hr⟩ := h
        injection hr with hport
        subst hts
        simp [TunnelManager.createTunnel, alookup_aset_self, hport]
      next herr =>
        rw [Prod.mk.injEq] at h
        exact absurd h.2 (by simp)

/-- C5 witness: a concrete first call followed by a second call. -/
theorem createTunnel_idempotent_witness :
    TunnelManager.createTunnel
        (TunnelManager.createTunnel ⟨[], 0⟩ 5000 (.ok ()) "c1" sampleTunnelConfig
          ⟨some "pw", none⟩).1
        6000 (.ok ()) "c1" sampleTunnelConfig ⟨some "pw", none⟩ =
      ((TunnelManager.createTunnel ⟨[], 0⟩ 5000 (.ok ()) "c1" sampleTunnelConfig
          ⟨some "pw", none⟩).1,
       .ok 5000) :=
  createTunnel_idempotent ⟨[], 0⟩
    (TunnelManager.createTunnel ⟨[], 0⟩ 5000 (.ok ()) "c1" sampleTunnelConfig
      ⟨some "pw", none⟩).1
    5000 5000 (.ok ()) "c1" sampleTunnelConfig ⟨some "pw", none⟩ (by rfl)
    6000 (.ok ()) sampleTunnelConfig ⟨some "pw", none⟩

/-- C6 counterexample: for a registered, connected id whose session's
native `connection.end()` rejects, the provider disconnect re-throws
before removing the session and the registry has no try/catch, so the
first `disconnect` propagates the rejection with the state unchanged
(still `connected=true`), and the second call in a row throws the same
error instead of finishing disconnected — refuting the unconditional
idempotency claim. -/
theorem disconnect_end_rejection :
    ConnectionManager.disconnect connectedState pbEndFails "c1" =
      (connectedState, .error "end failed") ∧
    ConnectionManager.disconnect
      (ConnectionManager.disconnect connectedState pbEndFails "c1").1 pbEndFails "c1" =
      (connectedState, .error "end failed") ∧
    ConnectionManager.isConnected
      (ConnectionManager.disconnect
        (ConnectionManager.disconnect connectedState pbEndFails "c1").1
        pbEndFails "c1").1 "c1" = true := by
  exact ⟨by rfl, by rfl, by rfl⟩

/-- C6 amended: disconnect is idempotent provided the provider's native
teardown resolves.  At the provider level, disconnecting an id with no
entry in the session map is a no-op, not an error, unconditionally; at
the registry level, after one `disconnect` of a registered id whose
`connection.end()` resolves, the status is `connected=false` with no
error recorded, and a second `disconnect` returns successfully leaving
the state exactly as it was.  (When the teardown rejects, the rejection
propagates before the status update and the connection stays marked
connected.) -/
theorem disconnect_idempotent (st : ManagerState) (pb : ProviderBehavior)
    (id : String) (cfg : ConnectionConfig)
    (hreg : alookup st.connections id = some cfg)
    (hend : pb.endResult = .ok ()) :
    (∀ sessions : List String, id ∉ sessions →
      providerDisconnect pb sessions id = .ok sessions) ∧
    ConnectionManager.getConnectionStatus (ConnectionManager.disconnect st pb id).1 id =
      some ⟨id, false, none, none⟩ ∧
    ConnectionManager.disconnect (ConnectionManager.disconnect st pb id).1 pb id =
      ((ConnectionManager.disconnect st pb id).1, .ok ()) := by
  have hprov : ∀ sessions : List String, id ∉ sessions →
      providerDisconnect pb sessions id = .ok sessions := by
    intro s hs
    simp [providerDisconnect, hs]
  obtain ⟨sess1, hshape⟩ : ∃ sess1, (ConnectionManager.disconnect st pb id).1 =
      { st with
          sessions := sess1,
          connectionStatus := aset st.connectionStatus id ⟨id, false, none, none⟩ } := by
    by_cases hc : pb.available ∧ ConnectionManager.isConnected st id
    · by_cases hm : id ∈ st.sessions
      · refine ⟨st.sessions.filter (fun s => s ≠ id), ?_⟩
        simp [ConnectionManager.disconnect, hreg, hc, providerDisconnect, hm, hend]
      · refine ⟨st.sessions, ?_⟩
        simp [ConnectionManager.disconnect, hreg, hc, providerDisconnect, hm]
    · refine ⟨st.sessions, ?_⟩
      simp [ConnectionManager.disconnect, hreg, hc]
  refine ⟨hprov, ?_, ?_⟩
  · rw [hshape]
    simp [ConnectionManager.getConnectionStatus, alookup_aset_self]
  · rw [hshape]
    have hic : ConnectionManager.isConnected
        { st with
            sessions := sess1,
            connectionStatus := aset st.connectionStatus id ⟨id, false, none, none⟩ }
        id = false := by
      simp [ConnectionManager.isConnected, alookup_aset_self]
    simp [ConnectionManager.disconnect, hreg, hic, aset_aset_same]

/-- C6 witness: double disconnect on the concrete connected state. -/
theorem disconnect_idempotent_witness :
    (∀ sessions : List String, "c1" ∉ sessions →
      providerDisconnect pbOk sessions "c1" = .ok sessions) ∧
    ConnectionManager.getConnectionStatus
      (ConnectionManager.disconnect connectedState pbOk "c1").1 "c1" =
      some ⟨"c1", false, none, none⟩ ∧
    ConnectionManager.disconnect
      (ConnectionManager.disconnect connectedState pbOk "c1").1 pbOk "c1" =
      ((ConnectionManager.disconnect connectedState pbOk "c1").1, .ok ()) :=
  disconnect_idempotent connectedState pbOk "c1" sampleConfig (by rfl) (by rfl)

/-- C2 counterexample: deleting the connected connection `c1` produces
the step order disconnect, config removed, status removed, credentials
deleted — the secret-store entry is removed after the config entry, not
before it as the claim's ordering requires. -/
theorem deleteConnection_config_before_credentials :
    ((ConnectionManager.deleteConnection connectedState pbOk "c1").2.2.map Prod.fst =
      [.disconnected, .configRemoved, .statusRemoved, .credentialsDeleted]) ∧
    ¬ (((ConnectionManager.deleteConnection connectedState pbOk "c1").2.2.map
          Prod.fst).indexOf ConnectionManager.DeleteStep.credentialsDeleted <
        ((ConnectionManager.deleteConnection connectedState pbOk "c1").2.2.map
          Prod.fst).indexOf ConnectionManager.DeleteStep.configRemoved) := by
  exact ⟨by decide, by decide⟩

/-- C2 amended: deleting a currently connected connection (provider
available, teardown resolving) performs, in order: provider disconnect
(session removed, status set disconnected), config removal, status
removal, credential deletion.  Every intermediate state after the first
step has `connected=false` and no provider session for the id, so no
intermediate state pairs a connected status with deleted
credentials. -/
theorem deleteConnection_order (st : ManagerState) (pb : ProviderBehavior)
    (id : String) (cfg : ConnectionConfig)
    (hreg : alookup st.connections id = some cfg)
    (hav : pb.available = true)
    (hconn : ConnectionManager.isConnected st id = true)
    (hend : pb.endResult = .ok ()) :
    (ConnectionManager.deleteConnection st pb id).2.1 = .ok () ∧
    ((ConnectionManager.deleteConnection st pb id).2.2.map Prod.fst =
      [.disconnected, .configRemoved, .statusRemoved, .credentialsDeleted]) ∧
    ∀ q ∈ (ConnectionManager.deleteConnection st pb id).2.2,
      ConnectionManager.isConnected q.2 id = false ∧ id ∉ q.2.sessions := by
  have hfilter : id ∉ st.sessions.filter (fun s => s ≠ id) := by
    simp [List.mem_filter]
  have hdisc : ConnectionManager.disconnect st pb id =
      ({ st with
          sessions := st.sessions.filter (fun s => s ≠ id),
          connectionStatus := aset st.connectionStatus id ⟨id, false, none, none⟩ },
       .ok ()) := by
    by_cases hm : id ∈ st.sessions
    · simp [ConnectionManager.disconnect, hreg, hav, hconn, providerDisconnect, hm, hend]
    · have hid : List.filter (fun s => !decide (s = id)) st.sessions = st.sessions := by
        apply List.filter_eq_self.mpr
        intro a ha
        simp only [Bool.not_eq_true', decide_eq_false_iff_not]
        rintro rfl
        exact hm ha
      simp [ConnectionManager.disconnect, hreg, hav, hconn, providerDisconnect, hm, hid]
  refine ⟨?_, ?_, ?_⟩
  · simp [ConnectionManager.deleteConnection, hconn, hdisc]
  · simp [ConnectionManager.deleteConnection, hconn, hdisc]
  · intro q hq
    simp only [ConnectionManager.deleteConnection, hconn, hdisc, if_true,
      List.nil_append, List.cons_append, List.mem_cons,
      List.not_mem_nil, or_false] at hq
    rcases hq with rfl | rfl | rfl | rfl <;>
      refine ⟨?_, ?_⟩ <;>
      simp [ConnectionManager.isConnected, alookup_aset_self,
        alookup_adel_self, hfilter]

/-- C2 amended witness: the concrete connected state. -/
theorem deleteConnection_order_witness :
    (ConnectionManager.deleteConnection connectedState pbOk "c1").2.1 = .ok () ∧
    ((ConnectionManager.deleteConnection connectedState pbOk "c1").2.2.map Prod.fst =
      [.disconnected, .configRemoved, .statusRemoved, .credentialsDeleted]) ∧
    ∀ q ∈ (ConnectionManager.deleteConnection connectedState pbOk "c1").2.2,
      ConnectionManager.isConnected q.2 "c1" = false ∧ "c1" ∉ q.2.sessions :=
  deleteConnection_order connectedState pbOk "c1" sampleConfig (by rfl) (by rfl)
    (by rfl) (by rfl)

end DBX
